import Mathlib

/-!
# Verification of the preschool-demand forecasting core (`ecda`)

Shallow embedding of the forecasting engine:
* `src/process_fertility.py` — birth-year windows, fertility extrapolation;
* `src/process_bto.py` — cumulative BTO (new-housing) units per subzone;
* `src/process_existing_residents.py` — women counts by subzone and age bin;
* `src/forecast.py` — the `Forecaster` per-year estimators, combination,
  preschools-needed conversion and gap computation.

Numeric values held in pandas Series/DataFrames are modelled as rationals
(`ℚ`); Python/prior numpy integer casts (`astype(int)`, `int(...)`) truncate
toward zero and are modelled by `truncToZero`; Python's `round` and numpy's
`.round(0)` round half to even and are modelled by `pyRound`.
-/

namespace Ecda

/-- Python 3 `round` / numpy `.round(0)` on an exact value: round half to even.
(`m / 12` for the month counts used here, and `count / capacity` at its ties,
are exactly representable, so rounding the rational is faithful to rounding
the float.) -/
def pyRound (q : ℚ) : ℤ :=
  if q - ⌊q⌋ < 1 / 2 then ⌊q⌋
  else if 1 / 2 < q - ⌊q⌋ then ⌊q⌋ + 1
  else if ⌊q⌋ % 2 = 0 then ⌊q⌋ else ⌊q⌋ + 1

/-- numpy/pandas `astype(int)` and Python `int(...)` on a finite value:
truncation toward zero. -/
def truncToZero (q : ℚ) : ℤ :=
  if 0 ≤ q then ⌊q⌋ else ⌈q⌉

/-- Python `list(range(a, b + 1))`: the integers `a, a+1, …, b` (empty when
`b < a`). -/
def intRange (a b : ℤ) : List ℤ :=
  (List.range (b + 1 - a).toNat).map (fun (i : ℕ) => a + (i : ℤ))

/-- `FertilityProcessor.birth_years_for_single_forecast_year`
(`process_fertility.py`): the contiguous inclusive range
`[forecast_year - round(max_preschool_age / 12),
  forecast_year - round(min_preschool_age / 12)]`. -/
def birth_years_for_single_forecast_year
    (min_preschool_age max_preschool_age : ℤ) (forecast_year : ℤ) : List ℤ :=
  let start_birth_year := forecast_year - pyRound ((max_preschool_age : ℚ) / 12)
  let end_birth_year := forecast_year - pyRound ((min_preschool_age : ℚ) / 12)
  intRange start_birth_year end_birth_year

/-- Python `max(l)`: fails (raises `ValueError`) on an empty list, hence
`Option`-valued here. -/
def pyMax (l : List ℤ) : Option ℤ := l.max?

/-- `FertilityProcessor.birth_years_for_multiple_forecast_years`
(`process_fertility.py`): `None` (here `none`) for an empty input; otherwise
the full single-year window of the first forecast year, then for each
subsequent forecast year (in order) only the `max` of that year's window.
`max` of an empty window is a Python error, modelled by `Option` failure. -/
def birth_years_for_multiple_forecast_years
    (min_preschool_age max_preschool_age : ℤ) :
    List ℤ → Option (List ℤ)
  | [] => none
  | fy :: rest => do
      let base :=
        birth_years_for_single_forecast_year
          min_preschool_age max_preschool_age fy
      let extras ← rest.mapM (fun y =>
        pyMax (birth_years_for_single_forecast_year
          min_preschool_age max_preschool_age y))
      pure (base ++ extras)

/-! ## Basic facts about `intRange` -/

theorem mem_intRange {a b x : ℤ} : x ∈ intRange a b ↔ a ≤ x ∧ x ≤ b := by
  unfold intRange
  simp only [List.mem_map, List.mem_range]
  constructor
  · rintro ⟨i, hi, rfl⟩
    omega
  · rintro ⟨h1, h2⟩
    exact ⟨(x - a).toNat, by omega, by omega⟩

theorem intRange_pairwise {a b : ℤ} : (intRange a b).Pairwise (· < ·) := by
  unfold intRange
  refine (List.pairwise_map).mpr ?_
  exact (List.pairwise_lt_range _).imp (fun h => by omega)

theorem intRange_nodup {a b : ℤ} : (intRange a b).Nodup :=
  intRange_pairwise.imp (fun h => ne_of_lt h)

theorem intRange_max? {a b : ℤ} (h : a ≤ b) : (intRange a b).max? = some b := by
  have hanti : Std.Antisymm ((· : ℤ) ≤ ·) := ⟨fun {x y} h1 h2 => le_antisymm h1 h2⟩
  rw [List.max?_eq_some_iff]
  · refine ⟨mem_intRange.mpr ⟨h, le_refl b⟩, fun x hx => (mem_intRange.mp hx).2⟩
  · exact fun x => le_refl x
  · exact fun x y => max_choice x y
  · exact fun x y z => max_le_iff

theorem intRange_cons {a b : ℤ} (h : a ≤ b) :
    intRange a b = a :: intRange (a + 1) b := by
  unfold intRange
  have hn : (b + 1 - a).toNat = (b + 1 - (a + 1)).toNat + 1 := by omega
  rw [hn, List.range_succ_eq_map, List.map_cons, List.map_map]
  simp only [Nat.cast_zero, add_zero]
  congr 1
  apply List.map_congr_left
  intro i _
  simp only [Function.comp_apply]
  omega

theorem intRange_map_sub {a b c : ℤ} :
    (intRange a b).map (fun y => y - c) = intRange (a - c) (b - c) := by
  unfold intRange
  rw [List.map_map]
  have hn : (b + 1 - a).toNat = (b - c + 1 - (a - c)).toNat := by omega
  rw [hn]
  apply List.map_congr_left
  intro i _
  simp only [Function.comp_apply]
  omega

theorem intRange_nil {a b : ℤ} (h : b < a) : intRange a b = [] := by
  unfold intRange
  rw [show (b + 1 - a).toNat = 0 by omega]
  rfl

theorem mapM_option_eq_some_map {α β : Type} (f : α → Option β) (g : α → β)
    (l : List α) (h : ∀ y ∈ l, f y = some (g y)) :
    l.mapM f = some (l.map g) := by
  induction l with
  | nil => rfl
  | cons a l ih =>
      have ha := h a (List.mem_cons_self a l)
      have hl := ih (fun y hy => h y (List.mem_cons_of_mem a hy))
      rw [List.mapM_cons, ha, hl]
      rfl

/-- A list whose successive elements increase by exactly 1 is a contiguous
integer range. -/
theorem chain_consec_eq_intRange (l : List ℤ) (fy : ℤ)
    (h : List.Chain' (fun a b => b = a + 1) (fy :: l)) :
    fy :: l = intRange fy (fy + l.length) := by
  induction l generalizing fy with
  | nil =>
      simp only [List.length_nil, Nat.cast_zero, add_zero]
      rw [intRange_cons le_rfl, intRange_nil (by omega)]
  | cons y l ih =>
      rw [List.chain'_cons] at h
      obtain ⟨hy, hl⟩ := h
      have htail := ih y hl
      rw [intRange_cons (by omega)]
      have harg : intRange (fy + 1) (fy + ↑(y :: l).length) = intRange y (y + ↑l.length) := by
        congr 1
        · omega
        · simp only [List.length_cons]
          push_cast
          omega
      rw [harg, ← htail]

theorem birth_years_single_eq_intRange (minA maxA y : ℤ) :
    birth_years_for_single_forecast_year minA maxA y =
      intRange (y - pyRound ((maxA : ℚ) / 12)) (y - pyRound ((minA : ℚ) / 12)) := rfl

theorem birth_years_single_max (minA maxA y : ℤ)
    (h : pyRound ((minA : ℚ) / 12) ≤ pyRound ((maxA : ℚ) / 12)) :
    pyMax (birth_years_for_single_forecast_year minA maxA y) =
      some (y - pyRound ((minA : ℚ) / 12)) := by
  rw [birth_years_single_eq_intRange]
  exact intRange_max? (by omega)

/-- C2: for a non-empty ordered sequence of forecast years,
`birth_years_for_multiple_forecast_years` returns exactly the single-year
window of the first forecast year followed by, for each subsequent forecast
year in order, only the maximum birth year of that year's single-year window;
and when the forecast years are consecutive integers incrementing by 1 the
result is strictly ascending and its members are exactly the union of the
individual single-year windows. -/
theorem multi_year_window_is_first_window_then_maxes
    (minA maxA fy : ℤ) (rest : List ℤ)
    (h : pyRound ((minA : ℚ) / 12) ≤ pyRound ((maxA : ℚ) / 12)) :
    (∀ y ∈ rest,
        pyMax (birth_years_for_single_forecast_year minA maxA y) =
          some (y - pyRound ((minA : ℚ) / 12))) ∧
    birth_years_for_multiple_forecast_years minA maxA (fy :: rest) =
      some (birth_years_for_single_forecast_year minA maxA fy ++
        rest.map (fun y => y - pyRound ((minA : ℚ) / 12))) ∧
    (List.Chain' (fun a b => b = a + 1) (fy :: rest) →
      (birth_years_for_single_forecast_year minA maxA fy ++
          rest.map (fun y => y - pyRound ((minA : ℚ) / 12))).Pairwise (· < ·) ∧
      ∀ x, (x ∈ birth_years_for_single_forecast_year minA maxA fy ++
              rest.map (fun y => y - pyRound ((minA : ℚ) / 12)) ↔
        ∃ g ∈ fy :: rest,
          x ∈ birth_years_for_single_forecast_year minA maxA g)) := by
  have hmax : ∀ y ∈ rest,
      pyMax (birth_years_for_single_forecast_year minA maxA y) =
        some (y - pyRound ((minA : ℚ) / 12)) :=
    fun y _ => birth_years_single_max minA maxA y h
  refine ⟨hmax, ?_, ?_⟩
  · show (rest.mapM (fun y =>
        pyMax (birth_years_for_single_forecast_year minA maxA y))).bind
          (fun extras => some
            (birth_years_for_single_forecast_year minA maxA fy ++ extras)) = _
    rw [mapM_option_eq_some_map _ (fun y => y - pyRound ((minA : ℚ) / 12)) rest hmax]
    rfl
  · intro hc
    have hcons := chain_consec_eq_intRange rest fy hc
    rw [intRange_cons (by omega)] at hcons
    have hrest : rest = intRange (fy + 1) (fy + (rest.length : ℤ)) := by
      injection hcons
    constructor
    · rw [birth_years_single_eq_intRange, hrest, intRange_map_sub]
      refine List.pairwise_append.mpr ⟨intRange_pairwise, intRange_pairwise, ?_⟩
      intro x hx y hy
      have hx' := mem_intRange.mp hx
      have hy' := mem_intRange.mp hy
      omega
    · intro x
      simp only [birth_years_single_eq_intRange, List.mem_append, List.mem_cons]
      rw [hrest, intRange_map_sub]
      simp only [mem_intRange]
      constructor
      · rintro (⟨h1, h2⟩ | ⟨h1, h2⟩)
        · exact ⟨fy, Or.inl rfl, by omega, by omega⟩
        · exact ⟨x + pyRound ((minA : ℚ) / 12), Or.inr ⟨by omega, by omega⟩,
            by omega, by omega⟩
      · rintro ⟨g, hg | hg, hx1, hx2⟩
        · left; omega
        · obtain ⟨hg1, hg2⟩ := hg
          by_cases hcase : x ≤ fy - pyRound ((minA : ℚ) / 12)
          · left; omega
          · right; omega

/-- Default config: `round(18 / 12) = round(1.5) = 2` (round half to even). -/
theorem pyRound_18_div_12 : pyRound (((18 : ℤ) : ℚ) / 12) = 2 := by
  have hc : (((18 : ℤ) : ℚ)) = 18 := by norm_num
  have hf : ⌊(18 : ℚ) / 12⌋ = 1 := by norm_num
  unfold pyRound
  rw [hc, hf]
  norm_num

/-- Default config: `round(72 / 12) = 6`. -/
theorem pyRound_72_div_12 : pyRound (((72 : ℤ) : ℚ) / 12) = 6 := by
  have hc : (((72 : ℤ) : ℚ)) = 72 := by norm_num
  have hf : ⌊(72 : ℚ) / 12⌋ = 6 := by norm_num
  unfold pyRound
  rw [hc, hf]
  norm_num

/-- With the default ages (18 and 72 months) the single-year window for
forecast year `fy` is `[fy - 6, fy - 2]`. -/
theorem birth_years_single_default (fy : ℤ) :
    birth_years_for_single_forecast_year 18 72 fy = intRange (fy - 6) (fy - 2) := by
  rw [birth_years_single_eq_intRange, pyRound_18_div_12, pyRound_72_div_12]

theorem multi_year_window_witness :
    pyRound (((18 : ℤ) : ℚ) / 12) ≤ pyRound (((72 : ℤ) : ℚ) / 12) ∧
    birth_years_for_multiple_forecast_years 18 72 [2026, 2027, 2028] =
      some [2020, 2021, 2022, 2023, 2024, 2025, 2026] := by
  have h : pyRound (((18 : ℤ) : ℚ) / 12) ≤ pyRound (((72 : ℤ) : ℚ) / 12) := by
    rw [pyRound_18_div_12, pyRound_72_div_12]
    decide
  refine ⟨h, ?_⟩
  have heq :=
    (multi_year_window_is_first_window_then_maxes 18 72 2026 [2027, 2028] h).2.1
  rw [heq, birth_years_single_default, pyRound_18_div_12]
  decide

theorem intRange_chain' {a b : ℤ} :
    List.Chain' (fun x y => y = x + 1) (intRange a b) := by
  unfold intRange
  rw [List.chain'_map]
  cases hn : (b + 1 - a).toNat with
  | zero => simp
  | succ m =>
      rw [List.chain'_range_succ]
      intro i _
      push_cast
      ring

theorem intRange_length {a b : ℤ} : (intRange a b).length = (b + 1 - a).toNat := by
  unfold intRange
  rw [List.length_map, List.length_range]

theorem intRange_getLast? {a b : ℤ} (h : a ≤ b) :
    (intRange a b).getLast? = some b := by
  unfold intRange
  obtain ⟨m, hm⟩ : ∃ m, (b + 1 - a).toNat = m + 1 := ⟨(b - a).toNat, by omega⟩
  rw [hm, List.range_succ, List.map_append, List.map_cons, List.map_nil,
    List.getLast?_concat]
  congr 1
  omega

/-- `Forecaster.__init__` (`forecast.py`):
`forecast_years = list(range(current_year + 1, current_year + 1 + num_forecast_years))`. -/
def forecast_years (current_year num_forecast_years : ℤ) : List ℤ :=
  intRange (current_year + 1) (current_year + num_forecast_years)

/-- C10: for a positive number of forecast years, the orchestrator's
forecast-year list is the consecutive ascending integer range
`current_year + 1 … current_year + num_forecast_years` (first element
`current_year + 1`, last `current_year + num_forecast_years`, each successive
element one more than the previous), which is the consecutive-years assumption
required by the incremental multi-year birth-year window. -/
theorem forecast_years_are_consecutive_range
    (current_year num_forecast_years : ℤ) (h : 0 < num_forecast_years) :
    (forecast_years current_year num_forecast_years).length =
        num_forecast_years.toNat ∧
    (forecast_years current_year num_forecast_years).head? =
        some (current_year + 1) ∧
    (forecast_years current_year num_forecast_years).getLast? =
        some (current_year + num_forecast_years) ∧
    (∀ x, x ∈ forecast_years current_year num_forecast_years ↔
        current_year + 1 ≤ x ∧ x ≤ current_year + num_forecast_years) ∧
    List.Chain' (fun a b => b = a + 1)
      (forecast_years current_year num_forecast_years) := by
  unfold forecast_years
  refine ⟨?_, ?_, ?_, ?_, intRange_chain'⟩
  · rw [intRange_length]
    omega
  · rw [intRange_cons (by omega)]
    rfl
  · exact intRange_getLast? (by omega)
  · intro x
    exact mem_intRange

theorem forecast_years_witness :
    (0 : ℤ) < 5 ∧
    List.Chain' (fun a b => b = a + 1) (forecast_years 2025 5) := by
  refine ⟨by decide, ?_⟩
  have h := (forecast_years_are_consecutive_range 2025 5 (by decide)).2.2.2.2
  exact h

/-! ## Preschools-needed conversion and configuration (`forecast.py`) -/

/-- The `Config` dataclass (`forecast.py`): a plain record with defaults and
no validation of any field (any integer is accepted for
`preschool_capacity`). Only the fields the verified claims concern are
modelled. -/
structure Config where
  num_forecast_years : ℤ := 5
  preschool_capacity : ℤ := 100
  min_preschool_age : ℤ := 18
  max_preschool_age : ℤ := 72

/-- pandas division of an integer-valued series value by the integer
`preschool_capacity` (`Forecaster.run`:
`forecasted_num_preschoolers / self.config.preschool_capacity`). A zero
divisor produces a non-finite float (`inf`, or `NaN` for `0 / 0`) instead of
raising, modelled as `none`. -/
def seriesDivByCapacity (count capacity : ℤ) : Option ℚ :=
  if capacity = 0 then none else some ((count : ℚ) / (capacity : ℚ))

/-- `Forecaster.run` (`forecast.py`):
`(forecasted_num_preschoolers / capacity).round(0).astype(int)` per cell.
numpy `.round(0)` rounds half to even (`pyRound`); pandas `astype(int)`
raises `ValueError` on a non-finite value, modelled as `Except.error`. -/
def forecasted_preschools_needed (count capacity : ℤ) : Except String ℤ :=
  match seriesDivByCapacity count capacity with
  | none => Except.error "Cannot convert non-finite values (NA or inf) to integer"
  | some q => Except.ok (pyRound q)

/-- Modelled from the spec's words, for comparison only (C6): rounding half
away from zero ("round-half-up" for positive values). -/
def roundHalfAwayFromZero (q : ℚ) : ℤ :=
  if 0 ≤ q then ⌊q + 1 / 2⌋ else ⌈q - 1 / 2⌉

/-- C6 counterexample: at count 250 and capacity 100 the code returns
`round(2.5) = 2` (half to even), while round-half-away-from-zero gives 3. -/
theorem preschools_needed_not_half_away_cex :
    forecasted_preschools_needed 250 100 = Except.ok 2 ∧
    roundHalfAwayFromZero (((250 : ℤ) : ℚ) / ((100 : ℤ) : ℚ)) = 3 := by
  constructor
  · have hq : (((250 : ℤ) : ℚ) / ((100 : ℤ) : ℚ)) = 5 / 2 := by norm_num
    have hf : ⌊(5 : ℚ) / 2⌋ = 2 := by norm_num
    unfold forecasted_preschools_needed seriesDivByCapacity
    rw [if_neg (by decide)]
    show Except.ok (pyRound (((250 : ℤ) : ℚ) / ((100 : ℤ) : ℚ))) = Except.ok 2
    rw [hq]
    unfold pyRound
    rw [hf]
    norm_num
  · have hq : (((250 : ℤ) : ℚ) / ((100 : ℤ) : ℚ)) = 5 / 2 := by norm_num
    unfold roundHalfAwayFromZero
    rw [hq, if_pos (by norm_num)]
    norm_num

/-- C6 (amended): for every positive capacity the conversion equals
round-half-to-even (numpy banker's rounding) of `count / capacity` — not
truncation, not ceiling division, and at exact halves not
round-half-away-from-zero: a fractional part below 1/2 rounds down, above 1/2
rounds up, and an exact half rounds to the even neighbour. -/
theorem preschools_needed_rounds_half_to_even (count capacity : ℤ)
    (h : 0 < capacity) :
    forecasted_preschools_needed count capacity =
      Except.ok (pyRound ((count : ℚ) / (capacity : ℚ))) ∧
    ((count : ℚ) / (capacity : ℚ) - ⌊(count : ℚ) / (capacity : ℚ)⌋ < 1 / 2 →
      pyRound ((count : ℚ) / (capacity : ℚ)) =
        ⌊(count : ℚ) / (capacity : ℚ)⌋) ∧
    (1 / 2 < (count : ℚ) / (capacity : ℚ) - ⌊(count : ℚ) / (capacity : ℚ)⌋ →
      pyRound ((count : ℚ) / (capacity : ℚ)) =
        ⌊(count : ℚ) / (capacity : ℚ)⌋ + 1) ∧
    ((count : ℚ) / (capacity : ℚ) - ⌊(count : ℚ) / (capacity : ℚ)⌋ = 1 / 2 →
      pyRound ((count : ℚ) / (capacity : ℚ)) % 2 = 0 ∧
      (pyRound ((count : ℚ) / (capacity : ℚ)) =
          ⌊(count : ℚ) / (capacity : ℚ)⌋ ∨
        pyRound ((count : ℚ) / (capacity : ℚ)) =
          ⌊(count : ℚ) / (capacity : ℚ)⌋ + 1)) := by
  refine ⟨?_, ?_, ?_, ?_⟩
  · unfold forecasted_preschools_needed seriesDivByCapacity
    rw [if_neg (by omega)]
  · intro hlt
    unfold pyRound
    rw [if_pos hlt]
  · intro hgt
    unfold pyRound
    rw [if_neg (by linarith), if_pos hgt]
  · intro htie
    unfold pyRound
    rw [if_neg (by rw [htie]; exact lt_irrefl _), if_neg (by rw [htie]; exact lt_irrefl _)]
    rcases Int.emod_two_eq_zero_or_one ⌊(count : ℚ) / (capacity : ℚ)⌋ with he | ho
    · rw [if_pos he]
      exact ⟨he, Or.inl rfl⟩
    · rw [if_neg (by omega)]
      exact ⟨by omega, Or.inr rfl⟩

theorem preschools_needed_witness :
    (0 : ℤ) < 100 ∧
    forecasted_preschools_needed 149 100 = Except.ok 1 ∧
    forecasted_preschools_needed 150 100 = Except.ok 2 := by
  refine ⟨by decide, ?_, ?_⟩
  · have h := preschools_needed_rounds_half_to_even 149 100 (by decide)
    have hq : (((149 : ℤ) : ℚ) / ((100 : ℤ) : ℚ)) = 149 / 100 := by norm_num
    have hf : ⌊(149 : ℚ) / 100⌋ = 1 := by norm_num
    have hfrac := h.2.1 (by rw [hq, hf]; norm_num)
    rw [h.1, hfrac, hq, hf]
  · have h := preschools_needed_rounds_half_to_even 150 100 (by decide)
    have hq : (((150 : ℤ) : ℚ) / ((100 : ℤ) : ℚ)) = 3 / 2 := by norm_num
    have hf : ⌊(3 : ℚ) / 2⌋ = 1 := by norm_num
    have htie := h.2.2.2 (by rw [hq, hf]; norm_num)
    rw [hq, hf] at htie
    rw [h.1, hq]
    obtain ⟨hpar, hcase | hcase⟩ := htie
    · rw [hcase] at hpar
      exact absurd hpar (by decide)
    · rw [hcase]
      rfl

/-- C9: the `Config` dataclass accepts a zero `preschool_capacity` without any
validation, and at zero capacity the needed-conversion performs an unchecked
division producing a non-finite value that only surfaces later as a pandas
integer-cast `ValueError` — there is no fail-fast configuration error. -/
theorem zero_capacity_gives_cast_error_not_config_error :
    (Config.mk 5 0 18 72).preschool_capacity = 0 ∧
    seriesDivByCapacity 149 0 = none ∧
    forecasted_preschools_needed 149 0 =
      Except.error "Cannot convert non-finite values (NA or inf) to integer" :=
  ⟨rfl, rfl, rfl⟩

/-! ## Gap computation (`Forecaster.calculate_preschool_gap`) -/

/-- The existing-preschools table consumed by the gap step
(rows = subzones, with a `num_preschools` column). -/
structure ExistingPreschoolsTable where
  subzones : List String
  num_preschools : String → ℤ

/-- A year × subzone integer matrix (rows = years, columns = subzones), such
as the forecasted-preschools-needed table. `val` is meaningful on
`years × cols`. -/
structure YearSubzoneMatrix where
  years : List ℤ
  cols : List String
  val : ℤ → String → ℤ

/-- `Forecaster.calculate_preschool_gap` (`forecast.py`): copy the
forecast-needed matrix; then for every row year and every subzone in
`set(existing_preschools.index) & set(preschool_gap.columns)` overwrite the
cell with `existing - needed`. Cells of columns outside that intersection
keep their copied forecast-needed values; the row and column sets are those
of the copy, hence unchanged. -/
def calculate_preschool_gap (existing_preschools : ExistingPreschoolsTable)
    (forecasted_needed : YearSubzoneMatrix) : YearSubzoneMatrix :=
  { years := forecasted_needed.years
    cols := forecasted_needed.cols
    val := fun year subzone =>
      if year ∈ forecasted_needed.years ∧
          subzone ∈ existing_preschools.subzones ∧
          subzone ∈ forecasted_needed.cols then
        existing_preschools.num_preschools subzone -
          forecasted_needed.val year subzone
      else forecasted_needed.val year subzone }

/-- The spec's gap example: existing supply `{A: 3}`. -/
def gapExampleSupply : ExistingPreschoolsTable :=
  ⟨["A"], fun _ => 3⟩

/-- The spec's gap example: forecast needed `{2026: {A: 5, B: 2}}`. -/
def gapExampleNeeded : YearSubzoneMatrix :=
  ⟨[2026], ["A", "B"], fun _ s => if s = "A" then 5 else 2⟩

/-- C1 counterexample: with existing supply `{A: 3}` and forecast needed
`{2026: {A: 5, B: 2}}`, subzone `B` is NOT excluded from the result: the gap
matrix keeps column `B`, whose cell still holds the forecast-needed value 2
(while `A` correctly gets `3 - 5 = -2`). -/
theorem calculate_preschool_gap_keeps_unmatched_subzones_cex :
    (calculate_preschool_gap gapExampleSupply gapExampleNeeded).cols =
      ["A", "B"] ∧
    "B" ∈ (calculate_preschool_gap gapExampleSupply gapExampleNeeded).cols ∧
    (calculate_preschool_gap gapExampleSupply gapExampleNeeded).val 2026 "B" =
      2 ∧
    (calculate_preschool_gap gapExampleSupply gapExampleNeeded).val 2026 "A" =
      -2 := by
  refine ⟨rfl, by decide, ?_, ?_⟩ <;>
    simp [calculate_preschool_gap, gapExampleSupply, gapExampleNeeded]

/-- C1 (amended): the gap result keeps the forecast matrix's full row and
column sets; for every row year, cells of subzones in the intersection of
the two subzone sets equal `existingSupply[subzone] −
forecastNeeded[year][subzone]`, while cells of subzones absent from the
existing-supply data are NOT excluded — they retain their unmodified
forecast-needed values. -/
theorem calculate_preschool_gap_intersection_cells
    (ex : ExistingPreschoolsTable) (fn : YearSubzoneMatrix)
    (year : ℤ) (subzone : String) (hy : year ∈ fn.years) :
    (calculate_preschool_gap ex fn).years = fn.years ∧
    (calculate_preschool_gap ex fn).cols = fn.cols ∧
    (subzone ∈ ex.subzones → subzone ∈ fn.cols →
      (calculate_preschool_gap ex fn).val year subzone =
        ex.num_preschools subzone - fn.val year subzone) ∧
    (subzone ∉ ex.subzones →
      (calculate_preschool_gap ex fn).val year subzone =
        fn.val year subzone) := by
  refine ⟨rfl, rfl, ?_, ?_⟩
  · intro h1 h2
    show (if year ∈ fn.years ∧ subzone ∈ ex.subzones ∧ subzone ∈ fn.cols then
        ex.num_preschools subzone - fn.val year subzone
      else fn.val year subzone) = _
    rw [if_pos ⟨hy, h1, h2⟩]
  · intro h1
    show (if year ∈ fn.years ∧ subzone ∈ ex.subzones ∧ subzone ∈ fn.cols then
        ex.num_preschools subzone - fn.val year subzone
      else fn.val year subzone) = _
    rw [if_neg (by tauto)]

theorem calculate_preschool_gap_witness :
    (2026 : ℤ) ∈ gapExampleNeeded.years ∧
    (calculate_preschool_gap gapExampleSupply gapExampleNeeded).val 2026 "A" =
      gapExampleSupply.num_preschools "A" - gapExampleNeeded.val 2026 "A" :=
  ⟨by decide,
    (calculate_preschool_gap_intersection_cells gapExampleSupply
      gapExampleNeeded 2026 "A" (by decide)).2.2.1 (by decide) (by decide)⟩

/-! ## Fertility-table extrapolation (`FertilityProcessor.extrapolate_births`) -/

theorem int_max?_eq_some_iff {l : List ℤ} {a : ℤ} :
    l.max? = some a ↔ a ∈ l ∧ ∀ b ∈ l, b ≤ a := by
  have hanti : Std.Antisymm ((· : ℤ) ≤ ·) := ⟨fun {x y} h1 h2 => le_antisymm h1 h2⟩
  exact List.max?_eq_some_iff (fun x => le_refl x) (fun x y => max_choice x y)
    (fun x y z => max_le_iff)

/-- The fertility table (`self.fertility_data`): year columns (pandas labels
are year strings, modelled as the parsed integers, since `int(str(y))`
round-trips) with the column contents, one rate per age-bin row label. -/
structure FertTable where
  cols : List ℤ
  colData : ℤ → (String → ℚ)

/-- `FertilityProcessor.extrapolate_births` (`process_fertility.py`): let
`latest_available_year` be the max year column present. If it is smaller
than `max(birth_years)`, append for each year in
`(latest_available_year, max(birth_years)]` not already present a column
copying the `latest_available_year` column; otherwise return the table
unchanged. Python `max` on an empty sequence raises, modelled by `Option`. -/
def extrapolate_births (t : FertTable) (birth_years : List ℤ) :
    Option FertTable := do
  let latest_available_year ← pyMax t.cols
  let max_birth_year ← pyMax birth_years
  if latest_available_year < max_birth_year then
    let new_years :=
      (intRange (latest_available_year + 1) max_birth_year).filter
        (fun y => y ∉ t.cols)
    pure { cols := t.cols ++ new_years
           colData := fun y =>
             if y ∈ new_years then t.colData latest_available_year
             else t.colData y }
  else
    pure t

theorem extrapolate_births_eq_of_le (t : FertTable) (bs : List ℤ)
    (latest mb : ℤ) (h1 : t.cols.max? = some latest) (h2 : bs.max? = some mb)
    (h3 : ¬(latest < mb)) : extrapolate_births t bs = some t := by
  unfold extrapolate_births pyMax
  rw [h1, h2]
  simp [h3]

theorem extrapolate_births_eq_of_lt (t : FertTable) (bs : List ℤ)
    (latest mb : ℤ) (h1 : t.cols.max? = some latest) (h2 : bs.max? = some mb)
    (h3 : latest < mb) :
    extrapolate_births t bs = some
      { cols := t.cols ++ (intRange (latest + 1) mb).filter (fun y => y ∉ t.cols)
        colData := fun y =>
          if y ∈ (intRange (latest + 1) mb).filter (fun y => y ∉ t.cols) then
            t.colData latest
          else t.colData y } := by
  unfold extrapolate_births pyMax
  rw [h1, h2]
  simp [h3]

/-- C8: fertility-table extrapolation is idempotent: running
`extrapolate_births` a second time with the same target birth years leaves
the table unchanged, and the first run never changes a year column already
present (it only appends columns for years not yet present). -/
theorem extrapolate_births_idempotent (t : FertTable) (birth_years : List ℤ)
    (ht : t.cols ≠ []) (hb : birth_years ≠ []) :
    (extrapolate_births t birth_years).bind
        (fun t2 => extrapolate_births t2 birth_years) =
      extrapolate_births t birth_years ∧
    (∀ t2, extrapolate_births t birth_years = some t2 →
      ∀ y ∈ t.cols, y ∈ t2.cols ∧ t2.colData y = t.colData y) := by
  obtain ⟨latest, hlat⟩ : ∃ l, t.cols.max? = some l := by
    cases h : t.cols.max? with
    | none => exact absurd (List.max?_eq_none_iff.mp h) ht
    | some l => exact ⟨l, rfl⟩
  obtain ⟨mb, hmb⟩ : ∃ m, birth_years.max? = some m := by
    cases h : birth_years.max? with
    | none => exact absurd (List.max?_eq_none_iff.mp h) hb
    | some m => exact ⟨m, rfl⟩
  have hcols_le : ∀ y ∈ t.cols, y ≤ latest := (int_max?_eq_some_iff.mp hlat).2
  by_cases hlt : latest < mb
  · have hpos := extrapolate_births_eq_of_lt t birth_years latest mb hlat hmb hlt
    have hmb_notin : mb ∉ t.cols := fun hin => absurd (hcols_le mb hin) (by omega)
    have hmb_mem :
        mb ∈ (intRange (latest + 1) mb).filter (fun y => y ∉ t.cols) := by
      rw [List.mem_filter]
      exact ⟨mem_intRange.mpr ⟨by omega, le_refl mb⟩, by simpa using hmb_notin⟩
    have hmax2 :
        (t.cols ++ (intRange (latest + 1) mb).filter
            (fun y => y ∉ t.cols)).max? = some mb := by
      rw [int_max?_eq_some_iff]
      refine ⟨List.mem_append_right _ hmb_mem, ?_⟩
      intro b hbmem
      rcases List.mem_append.mp hbmem with hcol | hnew
      · have := hcols_le b hcol
        omega
      · exact (mem_intRange.mp (List.mem_filter.mp hnew).1).2
    constructor
    · rw [hpos, Option.some_bind]
      exact extrapolate_births_eq_of_le _ birth_years mb mb hmax2 hmb
        (lt_irrefl mb)
    · intro t2 h2
      rw [hpos] at h2
      injection h2 with h2
      subst h2
      intro y hy
      refine ⟨List.mem_append_left _ hy, ?_⟩
      show (if y ∈ (intRange (latest + 1) mb).filter (fun y => y ∉ t.cols) then
          t.colData latest
        else t.colData y) = t.colData y
      rw [if_neg (fun hmem => by
        have := (List.mem_filter.mp hmem).2
        simp at this
        exact this hy)]
  · have hself := extrapolate_births_eq_of_le t birth_years latest mb hlat hmb hlt
    constructor
    · rw [hself, Option.some_bind, hself]
    · intro t2 h2
      rw [hself] at h2
      injection h2 with h2
      subst h2
      exact fun y hy => ⟨hy, rfl⟩

/-- A one-column example table (year 2023, constant rates). -/
def fertExampleTable : FertTable :=
  ⟨[2023], fun _ _ => 50⟩

theorem extrapolate_births_witness :
    (fertExampleTable.cols ≠ []) ∧ (([2025] : List ℤ) ≠ []) ∧
    (extrapolate_births fertExampleTable [2025]).bind
        (fun t2 => extrapolate_births t2 [2025]) =
      extrapolate_births fertExampleTable [2025] :=
  ⟨by decide, by decide,
    (extrapolate_births_idempotent fertExampleTable [2025]
      (by decide) (by decide)).1⟩

/-! ## Existing-residents estimator
(`Forecaster.calculate_existing_preschoolers_for_year`) -/

/-- The 7 maternal age bins (`ExistingResidentsProcessor.all_mother_ages`). -/
def all_mother_ages : List String :=
  ["15 - 19 Years", "20 - 24 Years", "25 - 29 Years", "30 - 34 Years",
   "35 - 39 Years", "40 - 44 Years", "45 - 49 Years"]

/-- One row of the `existing_women_by_age_bin` table
(columns `Subzone`, `Age Bin`, `Count`). -/
structure WomenRow where
  subzone : String
  ageBin : String
  count : ℚ
  deriving DecidableEq

/-- `subzone_data[subzone_data["Age Bin"] == age_bin]["Count"].sum()` for the
rows of one subzone: the summed women count of a (subzone, age-bin) pair. -/
def womenInAgeBin (rows : List WomenRow) (subzone ageBin : String) : ℚ :=
  ((rows.filter (fun r => r.subzone == subzone && r.ageBin == ageBin)).map
    (fun r => r.count)).sum

/-- The age-specific fertility-rate frame (`fertility_rates_by_age`): row
index (age-bin labels), column index (birth years; pandas labels are year
strings, modelled as the parsed integers) and entries, rates per 1000
women. -/
structure FertilityFrame where
  rows : List String
  cols : List ℤ
  entry : String → ℤ → ℚ

/-- The inner double loop of `calculate_existing_preschoolers_for_year`:
total births in one subzone for one birth year, accumulating
`women_in_age_bin * fertility_rate` over the 7 maternal age bins, where an
age bin contributes only when its women count is positive and it is present
in the rate frame's row index (missing combinations contribute 0, not an
error). The stored rate is per 1000 women, so the applied rate is
`entry / 1000`. -/
def total_births_in_subzone (fr : FertilityFrame) (women : List WomenRow)
    (subzone : String) (birth_year : ℤ) : ℚ :=
  (all_mother_ages.map (fun ageBin =>
    if 0 < womenInAgeBin women subzone ageBin ∧ ageBin ∈ fr.rows then
      womenInAgeBin women subzone ageBin * (fr.entry ageBin birth_year / 1000)
    else 0)).sum

/-- Per-subzone accumulated value of
`calculate_existing_preschoolers_for_year` before the final integer cast:
loop over the target year's birth-year window; skip birth years whose column
is absent from the rate frame; the window's maximum birth year
(`birth_year == max(birth_years_for_target)`) has its subzone total
multiplied by 0.5 once, after the age-bin sum. -/
def existing_preschoolers_raw (min_preschool_age max_preschool_age : ℤ)
    (fr : FertilityFrame) (women : List WomenRow)
    (target_year : ℤ) (subzone : String) : ℚ :=
  ((birth_years_for_single_forecast_year min_preschool_age max_preschool_age
      target_year).map (fun birth_year =>
    if birth_year ∈ fr.cols then
      (if (birth_years_for_single_forecast_year min_preschool_age
            max_preschool_age target_year).max? = some birth_year then
          (1 : ℚ) / 2
        else 1) * total_births_in_subzone fr women subzone birth_year
    else 0)).sum

/-- `calculate_existing_preschoolers_for_year` (`forecast.py`): the returned
series' index is the unique subzones of the women table
(`list(set(...))`, modelled as `dedup`), and each value is the accumulated
rational total cast with `astype(int)` — truncation toward zero
(`fillna(0)` is a no-op on these finite rationals, and the index is unique
by construction so the duplicate-regrouping branch is dead). -/
def calculate_existing_preschoolers_for_year
    (min_preschool_age max_preschool_age : ℤ) (fr : FertilityFrame)
    (women : List WomenRow) (target_year : ℤ) :
    List String × (String → ℤ) :=
  ((women.map (fun r => r.subzone)).dedup,
    fun subzone => truncToZero
      (existing_preschoolers_raw min_preschool_age max_preschool_age fr women
        target_year subzone))

/-- Splitting a sum over a duplicate-free list at a designated element. -/
theorem sum_map_filter_ne {α : Type} [DecidableEq α] (l : List α)
    (f : α → ℚ) (a : α) (hnd : l.Nodup) (ha : a ∈ l) :
    (l.map f).sum = ((l.filter (fun x => x ≠ a)).map f).sum + f a := by
  induction l with
  | nil => cases ha
  | cons b l ih =>
      rw [List.nodup_cons] at hnd
      rcases List.mem_cons.mp ha with hba | hal
      · subst hba
        have hfilter : l.filter (fun x => x ≠ a) = l :=
          List.filter_eq_self.mpr (fun x hx => by
            simp only [ne_eq, decide_eq_true_eq]
            exact fun hxa => hnd.1 (hxa ▸ hx))
        rw [List.filter_cons_of_neg (by simp), hfilter, List.map_cons,
          List.sum_cons]
        ring
      · have hne : b ≠ a := fun hba => hnd.1 (hba ▸ hal)
        rw [List.filter_cons_of_pos (by simpa using hne), List.map_cons,
          List.map_cons, List.sum_cons, List.sum_cons, ih hnd.2 hal]
        ring

/-- C3: in the existing-resident sub-calculation, for every target year and
subzone, every birth year of the window other than the maximum contributes
its 7-age-bin sum of women-count × rate undiscounted, while the window's
maximum birth year alone is multiplied by exactly 1/2, applied once after
the age-bin sum (birth years without a rate column contribute 0). -/
theorem existing_preschoolers_halves_max_birth_year_once
    (min_preschool_age max_preschool_age : ℤ) (fr : FertilityFrame)
    (women : List WomenRow) (target_year mb : ℤ) (subzone : String)
    (hmb : (birth_years_for_single_forecast_year min_preschool_age
        max_preschool_age target_year).max? = some mb) :
    existing_preschoolers_raw min_preschool_age max_preschool_age fr women
        target_year subzone =
      (((birth_years_for_single_forecast_year min_preschool_age
            max_preschool_age target_year).filter (fun y => y ≠ mb)).map
          (fun y =>
            if y ∈ fr.cols then total_births_in_subzone fr women subzone y
            else 0)).sum +
        (if mb ∈ fr.cols then
          (1 / 2 : ℚ) * total_births_in_subzone fr women subzone mb
        else 0) := by
  have hnd : (birth_years_for_single_forecast_year min_preschool_age
      max_preschool_age target_year).Nodup := by
    rw [birth_years_single_eq_intRange]
    exact intRange_nodup
  have hmem := (int_max?_eq_some_iff.mp hmb).1
  unfold existing_preschoolers_raw
  rw [sum_map_filter_ne _ _ mb hnd hmem]
  congr 1
  · congr 1
    apply List.map_congr_left
    intro y hy
    have hyne : y ≠ mb := by simpa using (List.mem_filter.mp hy).2
    have hnotmax : ¬((birth_years_for_single_forecast_year min_preschool_age
        max_preschool_age target_year).max? = some y) := by
      rw [hmb]
      intro heq
      exact hyne (Option.some.inj heq).symm
    by_cases hcol : y ∈ fr.cols
    · rw [if_pos hcol, if_pos hcol, if_neg hnotmax, one_mul]
    · rw [if_neg hcol, if_neg hcol]
  · by_cases hcol : mb ∈ fr.cols
    · rw [if_pos hcol, if_pos hcol, if_pos hmb]
    · rw [if_neg hcol, if_neg hcol]

/-- Example rate frame: only the window-maximum birth year 2024 has a
column; a single age-bin row with rate 50 per 1000 women. -/
def fertExampleFrame : FertilityFrame :=
  ⟨["30 - 34 Years"], [2024], fun _ _ => 50⟩

/-- Example women table: one subzone, 1000 women in one age bin. -/
def womenExample : List WomenRow :=
  [⟨"A", "30 - 34 Years", 1000⟩]

theorem existing_preschoolers_witness :
    (birth_years_for_single_forecast_year 18 72 2026).max? = some 2024 ∧
    existing_preschoolers_raw 18 72 fertExampleFrame womenExample 2026 "A" =
      25 ∧
    (calculate_existing_preschoolers_for_year 18 72 fertExampleFrame
        womenExample 2026).2 "A" = 25 := by
  have hmb : (birth_years_for_single_forecast_year 18 72 2026).max? =
      some 2024 := by
    rw [birth_years_single_default]
    decide
  have hraw : existing_preschoolers_raw 18 72 fertExampleFrame womenExample
      2026 "A" = 25 := by
    rw [existing_preschoolers_halves_max_birth_year_once 18 72
      fertExampleFrame womenExample 2026 2024 "A" hmb]
    rw [birth_years_single_default]
    have hw : intRange (2026 - 6) (2026 - 2) =
        [2020, 2021, 2022, 2023, 2024] := by decide
    rw [hw]
    simp only [total_births_in_subzone, womenInAgeBin, all_mother_ages,
      fertExampleFrame, womenExample, List.filter_cons, List.filter_nil]
    simp only [decide_eq_true_eq, Bool.and_eq_true, beq_iff_eq,
      String.reduceEq, ne_eq, if_false, if_true, and_false, false_and,
      and_true, true_and, List.map_nil, List.map_cons, List.sum_nil,
      List.sum_cons]
    norm_num
  refine ⟨hmb, hraw, ?_⟩
  show truncToZero (existing_preschoolers_raw 18 72 fertExampleFrame
    womenExample 2026 "A") = 25
  rw [hraw]
  unfold truncToZero
  rw [if_pos (by norm_num)]
  norm_num

/-! ## New-housing estimator (`Forecaster.calculate_bto_preschoolers_for_year`) -/

/-- The cumulative BTO-units frame (rows = completion years; pandas labels
are year strings, modelled as the parsed integers; columns = subzones).
`units` is the cumulative completed-unit count per (year, subzone). Column
labels are assumed unique here, so the code's duplicated-index regrouping
branches are dead. -/
structure BTOFrame where
  years : List ℤ
  subzones : List String
  units : ℤ → String → ℚ

/-- Per-subzone accumulated value of `calculate_bto_preschoolers_for_year`
before the final integer cast: loop over the target year's window; for each
birth year present in the frame's row index, the contribution is
`bto_units × fertility_rate` (cumulative units in that birth year × averaged
birth rate); when the birth year is the window maximum
(`birth_year == max(birth_years_for_target)`) AND
`min_preschool_age % 12 != 0`, that contribution is further multiplied by
`(12 - min_preschool_age % 12) / 12`. Birth years absent from the frame
contribute 0. -/
def bto_preschoolers_raw (min_preschool_age max_preschool_age : ℤ)
    (birth_rates : ℤ → ℚ) (bto : BTOFrame) (target_year : ℤ)
    (subzone : String) : ℚ :=
  ((birth_years_for_single_forecast_year min_preschool_age max_preschool_age
      target_year).map (fun birth_year =>
    if birth_year ∈ bto.years then
      if (birth_years_for_single_forecast_year min_preschool_age
            max_preschool_age target_year).max? = some birth_year ∧
          min_preschool_age % 12 ≠ 0 then
        bto.units birth_year subzone * birth_rates birth_year *
          ((12 - min_preschool_age % 12 : ℤ) : ℚ) / 12
      else bto.units birth_year subzone * birth_rates birth_year
    else 0)).sum

/-- `calculate_bto_preschoolers_for_year` (`forecast.py`): the returned
series' index is the unique subzones of the BTO frame
(`list(set(bto_units_by_subzone.columns))`, modelled as `dedup`), and each
value is the accumulated rational total cast with `astype(int)` —
truncation toward zero. -/
def calculate_bto_preschoolers_for_year
    (min_preschool_age max_preschool_age : ℤ) (birth_rates : ℤ → ℚ)
    (bto : BTOFrame) (target_year : ℤ) : List String × (String → ℤ) :=
  (bto.subzones.dedup,
    fun subzone => truncToZero
      (bto_preschoolers_raw min_preschool_age max_preschool_age birth_rates
        bto target_year subzone))

/-- C4: in the new-housing sub-calculation, for every target year, every
birth year present in the housing supply series contributes cumulative
units × averaged birth rate per subzone, multiplied by
`(12 − minAgeMonths % 12) / 12` if and only if that birth year is the
maximum of the window AND `minAgeMonths % 12 ≠ 0`; all other present birth
years contribute undiscounted, and absent birth years contribute 0. -/
theorem bto_preschoolers_partial_month_discount
    (min_preschool_age max_preschool_age : ℤ) (birth_rates : ℤ → ℚ)
    (bto : BTOFrame) (target_year mb : ℤ) (subzone : String)
    (hmb : (birth_years_for_single_forecast_year min_preschool_age
        max_preschool_age target_year).max? = some mb) :
    bto_preschoolers_raw min_preschool_age max_preschool_age birth_rates bto
        target_year subzone =
      (((birth_years_for_single_forecast_year min_preschool_age
            max_preschool_age target_year).filter (fun y => y ≠ mb)).map
          (fun y =>
            if y ∈ bto.years then bto.units y subzone * birth_rates y
            else 0)).sum +
        (if mb ∈ bto.years then
          bto.units mb subzone * birth_rates mb *
            (if min_preschool_age % 12 ≠ 0 then
              ((12 - min_preschool_age % 12 : ℤ) : ℚ) / 12
            else 1)
        else 0) := by
  have hnd : (birth_years_for_single_forecast_year min_preschool_age
      max_preschool_age target_year).Nodup := by
    rw [birth_years_single_eq_intRange]
    exact intRange_nodup
  have hmem := (int_max?_eq_some_iff.mp hmb).1
  unfold bto_preschoolers_raw
  rw [sum_map_filter_ne _ _ mb hnd hmem]
  congr 1
  · congr 1
    apply List.map_congr_left
    intro y hy
    have hyne : y ≠ mb := by simpa using (List.mem_filter.mp hy).2
    have hnotmax : ¬((birth_years_for_single_forecast_year min_preschool_age
          max_preschool_age target_year).max? = some y ∧
        min_preschool_age % 12 ≠ 0) := by
      rintro ⟨heq, -⟩
      rw [hmb] at heq
      exact hyne (Option.some.inj heq).symm
    by_cases hcol : y ∈ bto.years
    · rw [if_pos hcol, if_pos hcol, if_neg hnotmax]
    · rw [if_neg hcol, if_neg hcol]
  · by_cases hcol : mb ∈ bto.years
    · rw [if_pos hcol, if_pos hcol]
      by_cases hmod : min_preschool_age % 12 ≠ 0
      · rw [if_pos ⟨hmb, hmod⟩, if_pos hmod]
        rw [mul_div_assoc]
      · rw [if_neg (fun hand => hmod hand.2), if_neg hmod, mul_one]
    · rw [if_neg hcol, if_neg hcol]

/-- Example BTO frame: 200 cumulative units in subzone `A` at the
window-maximum birth year 2024. -/
def btoExampleFrame : BTOFrame :=
  ⟨[2024], ["A"], fun _ _ => 200⟩

/-- Example averaged birth rate: 0.02 births per woman per year. -/
def btoExampleRates : ℤ → ℚ := fun _ => 1 / 50

theorem bto_preschoolers_witness :
    (birth_years_for_single_forecast_year 18 72 2026).max? = some 2024 ∧
    bto_preschoolers_raw 18 72 btoExampleRates btoExampleFrame 2026 "A" =
      2 := by
  have hmb : (birth_years_for_single_forecast_year 18 72 2026).max? =
      some 2024 := by
    rw [birth_years_single_default]
    decide
  refine ⟨hmb, ?_⟩
  rw [bto_preschoolers_partial_month_discount 18 72 btoExampleRates
    btoExampleFrame 2026 2024 "A" hmb]
  rw [birth_years_single_default]
  have hw : intRange (2026 - 6) (2026 - 2) =
      [2020, 2021, 2022, 2023, 2024] := by decide
  rw [hw]
  have hfl : ([2020, 2021, 2022, 2023, 2024] : List ℤ).filter
      (fun y => y ≠ 2024) = [2020, 2021, 2022, 2023] := by decide
  rw [hfl]
  simp only [btoExampleFrame, btoExampleRates, List.map_cons, List.map_nil,
    List.sum_cons, List.sum_nil]
  norm_num

/-! ## Combination (`Forecaster.calculate_preschoolers_for_year`) -/

/-- `calculate_preschoolers_for_year` (`forecast.py`): run both
sub-calculations; build the union of their subzone keys
(`list(set(existing.index) | set(bto.index))`, modelled as `dedup` of the
concatenation); initialise every total to 0; then add each side's integer
value for every subzone of that side's index that is also in the union
(`if subzone in total_preschoolers.index`). The sides are already integers
from the sub-calculations' `astype(int)`, so the `int(...)` wrappers are the
identity; nothing is rounded or clamped here. -/
def calculate_preschoolers_for_year (min_preschool_age max_preschool_age : ℤ)
    (fr : FertilityFrame) (women : List WomenRow) (birth_rates : ℤ → ℚ)
    (bto : BTOFrame) (target_year : ℤ) : List String × (String → ℤ) :=
  let existing := calculate_existing_preschoolers_for_year min_preschool_age
    max_preschool_age fr women target_year
  let bto_preschoolers := calculate_bto_preschoolers_for_year
    min_preschool_age max_preschool_age birth_rates bto target_year
  let all_subzones := (existing.1 ++ bto_preschoolers.1).dedup
  (all_subzones, fun subzone =>
    (if subzone ∈ existing.1 ∧ subzone ∈ all_subzones then
      existing.2 subzone
    else 0) +
    (if subzone ∈ bto_preschoolers.1 ∧ subzone ∈ all_subzones then
      bto_preschoolers.2 subzone
    else 0))

/-- C5 (amended): the combined per-subzone count is defined on exactly the
union of the two sub-calculations' subzone keys, and each subzone's value is
the sum of its two contributions with a subzone appearing on only one side
getting that side's value and negative values propagated unclamped — but
each side's contribution is its rational total truncated toward zero by
`astype(int)` inside the sub-calculation, not the sum rounded to the nearest
integer. -/
theorem combine_is_sum_of_truncated_sides
    (min_preschool_age max_preschool_age : ℤ) (fr : FertilityFrame)
    (women : List WomenRow) (birth_rates : ℤ → ℚ) (bto : BTOFrame)
    (target_year : ℤ) (subzone : String) :
    (subzone ∈ (calculate_preschoolers_for_year min_preschool_age
        max_preschool_age fr women birth_rates bto target_year).1 ↔
      subzone ∈ (women.map (fun r => r.subzone)).dedup ∨
        subzone ∈ bto.subzones.dedup) ∧
    (calculate_preschoolers_for_year min_preschool_age max_preschool_age fr
        women birth_rates bto target_year).2 subzone =
      (if subzone ∈ (women.map (fun r => r.subzone)).dedup then
        truncToZero (existing_preschoolers_raw min_preschool_age
          max_preschool_age fr women target_year subzone)
      else 0) +
      (if subzone ∈ bto.subzones.dedup then
        truncToZero (bto_preschoolers_raw min_preschool_age max_preschool_age
          birth_rates bto target_year subzone)
      else 0) := by
  constructor
  · show subzone ∈ ((women.map (fun r => r.subzone)).dedup ++
        bto.subzones.dedup).dedup ↔ _
    rw [List.mem_dedup, List.mem_append]
  · show (if subzone ∈ (women.map (fun r => r.subzone)).dedup ∧
        subzone ∈ ((women.map (fun r => r.subzone)).dedup ++
          bto.subzones.dedup).dedup then
      truncToZero (existing_preschoolers_raw min_preschool_age
        max_preschool_age fr women target_year subzone)
    else 0) +
    (if subzone ∈ bto.subzones.dedup ∧
        subzone ∈ ((women.map (fun r => r.subzone)).dedup ++
          bto.subzones.dedup).dedup then
      truncToZero (bto_preschoolers_raw min_preschool_age max_preschool_age
        birth_rates bto target_year subzone)
    else 0) = _
    congr 1
    · by_cases he : subzone ∈ (women.map (fun r => r.subzone)).dedup
      · rw [if_pos ⟨he, List.mem_dedup.mpr (List.mem_append_left _ he)⟩,
          if_pos he]
      · rw [if_neg (fun hand => he hand.1), if_neg he]
    · by_cases hb : subzone ∈ bto.subzones.dedup
      · rw [if_pos ⟨hb, List.mem_dedup.mpr (List.mem_append_right _ hb)⟩,
          if_pos hb]
      · rw [if_neg (fun hand => hb hand.1), if_neg hb]

/-- Counterexample rate frame: only the non-maximum birth year 2020 has a
column; rate 600 per 1000 women. -/
def ceFrame : FertilityFrame :=
  ⟨["30 - 34 Years"], [2020], fun _ _ => 600⟩

/-- Counterexample women table: one woman in subzone `A`. -/
def ceWomen : List WomenRow :=
  [⟨"A", "30 - 34 Years", 1⟩]

/-- Counterexample BTO frame: empty (no years, no subzones). -/
def ceEmptyBTO : BTOFrame :=
  ⟨[], [], fun _ _ => 0⟩

/-- Counterexample averaged birth rates: all zero. -/
def ceZeroRates : ℤ → ℚ := fun _ => 0

/-- C5 counterexample: the two sub-calculation contributions for subzone `A`
sum to 3/5, whose nearest integer is 1 under any tie rule, but the combined
count is 0 because each side is truncated toward zero by `astype(int)`
before the sum — the combined value is not the sum rounded to nearest. -/
theorem combine_truncates_not_rounds_cex :
    (calculate_preschoolers_for_year 18 72 ceFrame ceWomen ceZeroRates
        ceEmptyBTO 2026).2 "A" = 0 ∧
    existing_preschoolers_raw 18 72 ceFrame ceWomen 2026 "A" +
      bto_preschoolers_raw 18 72 ceZeroRates ceEmptyBTO 2026 "A" = 3 / 5 ∧
    pyRound (3 / 5) = 1 ∧
    roundHalfAwayFromZero (3 / 5) = 1 := by
  have hw : intRange (2026 - 6) (2026 - 2) =
      [2020, 2021, 2022, 2023, 2024] := by decide
  have hmax : (intRange (2026 - 6) (2026 - 2)).max? = some 2024 := by decide
  have hrawe : existing_preschoolers_raw 18 72 ceFrame ceWomen 2026 "A" =
      3 / 5 := by
    unfold existing_preschoolers_raw
    rw [birth_years_single_default, hmax, hw]
    simp only [total_births_in_subzone, womenInAgeBin, all_mother_ages,
      ceFrame, ceWomen, List.filter_cons, List.filter_nil, List.map_cons,
      List.map_nil, List.sum_cons, List.sum_nil]
    simp only [decide_eq_true_eq, Bool.and_eq_true, beq_iff_eq,
      String.reduceEq, Option.some.injEq, List.mem_cons, List.mem_singleton,
      List.not_mem_nil, ne_eq, if_false, if_true, and_false, false_and,
      and_true, true_and, or_false]
    norm_num
  have hrawb : bto_preschoolers_raw 18 72 ceZeroRates ceEmptyBTO 2026 "A" =
      0 := by
    unfold bto_preschoolers_raw
    rw [birth_years_single_default, hmax, hw]
    simp [ceEmptyBTO]
  refine ⟨?_, ?_, ?_, ?_⟩
  · show (if "A" ∈ (ceWomen.map (fun r => r.subzone)).dedup ∧
        "A" ∈ ((ceWomen.map (fun r => r.subzone)).dedup ++
          ceEmptyBTO.subzones.dedup).dedup then
      truncToZero (existing_preschoolers_raw 18 72 ceFrame ceWomen 2026 "A")
    else 0) +
    (if "A" ∈ ceEmptyBTO.subzones.dedup ∧
        "A" ∈ ((ceWomen.map (fun r => r.subzone)).dedup ++
          ceEmptyBTO.subzones.dedup).dedup then
      truncToZero (bto_preschoolers_raw 18 72 ceZeroRates ceEmptyBTO 2026
        "A")
    else 0) = 0
    rw [if_pos ⟨by decide, by decide⟩, if_neg (fun hand => by
      exact absurd hand.1 (by decide)), hrawe]
    unfold truncToZero
    rw [if_pos (by norm_num)]
    norm_num
  · rw [hrawe, hrawb]
    norm_num
  · have hf : ⌊(3 : ℚ) / 5⌋ = 0 := by norm_num
    unfold pyRound
    rw [hf]
    norm_num
  · unfold roundHalfAwayFromZero
    rw [if_pos (by norm_num)]
    norm_num

theorem combine_witness :
    ("A" ∈ (calculate_preschoolers_for_year 18 72 fertExampleFrame
        womenExample btoExampleRates btoExampleFrame 2026).1 ↔
      "A" ∈ (womenExample.map (fun r => r.subzone)).dedup ∨
        "A" ∈ btoExampleFrame.subzones.dedup) ∧
    (calculate_preschoolers_for_year 18 72 fertExampleFrame womenExample
        btoExampleRates btoExampleFrame 2026).2 "A" =
      truncToZero (existing_preschoolers_raw 18 72 fertExampleFrame
        womenExample 2026 "A") +
      truncToZero (bto_preschoolers_raw 18 72 btoExampleRates btoExampleFrame
        2026 "A") := by
  have h := combine_is_sum_of_truncated_sides 18 72 fertExampleFrame
    womenExample btoExampleRates btoExampleFrame 2026 "A"
  refine ⟨h.1, ?_⟩
  rw [h.2, if_pos (by decide), if_pos (by decide)]

/-! ## Upstream aggregation of subzone-keyed tables
(`ExistingResidentsProcessor.aggregate_women_by_age_bin`,
`BTOProcessor.get_cumulative_bto_units_by_subzone`) -/

/-- `ExistingResidentsProcessor.get_age_bins`
(`process_existing_residents.py`): the dict mapping each age string to its
bin label, `str(age) ↦ bin_name` for every `age` in
`range(int(bin_name.split(" - ")[0]),
int(bin_name.split(" - ")[1].replace(" Years", "")) + 1)`. The parsed
bounds of the seven fixed labels are 15–19, 20–24, 25–29, 30–34, 35–39,
40–44 and 45–49 — i.e. bin `b` (0-based) covers `15 + 5 b` to
`15 + 5 b + 4`; the parse of the literal labels is pre-evaluated here
because Lean's string-splitting primitives do not reduce in the kernel. -/
def get_age_bins : List (String × String) :=
  (List.range 7).flatMap (fun b =>
    (List.range 5).map (fun i =>
      (toString (15 + 5 * b + i), all_mother_ages.getD b "")))

/-- One row of the cleaned existing-residents table (columns `Subzone`,
`Age`, `Count`); `count` is `none` when
`pd.to_numeric(..., errors="coerce")` produced NaN. -/
structure RawResidentRow where
  subzone : String
  age : String
  count : Option ℚ

/-- The tagging step of `aggregate_women_by_age_bin`: map each row's age
string to its age bin (`.astype(str).map(self.age_bins)`) and drop rows
whose count or bin is missing (`dropna(subset=["Count", "Age Bin"])`). -/
def taggedResidentRows (rows : List RawResidentRow) : List WomenRow :=
  rows.filterMap (fun r =>
    match r.count, get_age_bins.lookup r.age with
    | some c, some bin => some ⟨r.subzone, bin, c⟩
    | _, _ => none)

/-- `aggregate_women_by_age_bin` (`process_existing_residents.py`):
`groupby(["Subzone", "Age Bin"])["Count"].sum()` over the tagged rows — one
output row per distinct raw (subzone, age-bin) key, holding the sum of the
counts with exactly that key. No normalization of subzone names happens
anywhere in this processor. (pandas sorts the group keys; key order is
irrelevant to the properties proved here, so first-appearance order is
used.) -/
def aggregate_women_by_age_bin (rows : List RawResidentRow) :
    List WomenRow :=
  let tagged := taggedResidentRows rows
  ((tagged.map (fun r => (r.subzone, r.ageBin))).dedup).map (fun key =>
    ⟨key.1, key.2,
      ((tagged.filter (fun r =>
          r.subzone == key.1 && r.ageBin == key.2)).map
        (fun r => r.count)).sum⟩)

/-- pandas `.str.strip()`: remove leading and trailing whitespace
(written over the character list so that it reduces in the kernel). -/
def stripStr (s : String) : String :=
  ⟨((s.data.dropWhile Char.isWhitespace).reverse.dropWhile
    Char.isWhitespace).reverse⟩

/-- One row of the BTO mapping CSV (columns `Subzone`,
`Estimated completion year`, `Total number of units`). -/
structure BTORawRow where
  subzone : String
  completion_year : ℤ
  units : ℚ

/-- `BTOProcessor.get_cumulative_bto_units_by_subzone` (`process_bto.py`):
filter to completions with year ≤ `max(years)` (Python `max` raises on an
empty list, hence `Option`); pivot by RAW subzone (summing units per
(subzone, completion year), `fill_value=0`) and cumulative-sum along the
year columns — so the value of a subzone at a year is the sum of all its
filtered units with completion year ≤ that year; transpose; and only AFTER
this aggregation strip whitespace from the subzone labels
(`columns.str.strip()`). Raw subzones differing only by whitespace are
therefore aggregated separately and end up as duplicate labels. (pandas
sorts the pivot index; label order is irrelevant to the properties proved
here, so first-appearance order of the distinct raw subzones is used.) -/
def get_cumulative_bto_units_by_subzone (bto_data : List BTORawRow)
    (years : List ℤ) : Option (List (String × (ℤ → ℚ))) := do
  let max_year ← pyMax years
  let bto_data_for_forecast := bto_data.filter
    (fun r => r.completion_year ≤ max_year)
  let subzones := (bto_data_for_forecast.map (fun r => r.subzone)).dedup
  pure (subzones.map (fun sz =>
    (stripStr sz,
      fun y => ((bto_data_for_forecast.filter (fun r =>
          r.subzone == sz && r.completion_year ≤ y)).map
        (fun r => r.units)).sum)))

/-- Duplicate-key example: subzone names "Bedok " (trailing space) and
"Bedok", same age. -/
def dupResidentRows : List RawResidentRow :=
  [⟨"Bedok ", "30", some 10⟩, ⟨"Bedok", "30", some 5⟩,
   ⟨"Bedok", "30", some 2⟩]

/-- Duplicate-key example for the BTO pivot. -/
def dupBTORows : List BTORawRow :=
  [⟨"Bedok", 2024, 100⟩, ⟨"Bedok ", 2024, 50⟩]

/-- C7 counterexample: the existing-residents aggregation keeps "Bedok "
and "Bedok" as two separate entries (no whitespace normalization before —
or after — grouping), and the BTO pivot aggregates them separately and
strips labels only afterwards, producing two duplicate "Bedok" columns
rather than a single summed entry. -/
theorem aggregation_keeps_whitespace_duplicates_cex :
    (aggregate_women_by_age_bin dupResidentRows).length = 2 ∧
    ((aggregate_women_by_age_bin dupResidentRows).countP
      (fun r => r.subzone == "Bedok ")) = 1 ∧
    ((aggregate_women_by_age_bin dupResidentRows).countP
      (fun r => r.subzone == "Bedok")) = 1 ∧
    ((aggregate_women_by_age_bin dupResidentRows).map
      (fun r => r.count)).sum = 17 ∧
    (get_cumulative_bto_units_by_subzone dupBTORows [2024]).map
      (fun entries => entries.map (fun e => e.1)) =
      some ["Bedok", "Bedok"] := by
  refine ⟨by decide, by decide, by decide, ?_, by decide⟩
  have htag : taggedResidentRows dupResidentRows =
      [⟨"Bedok ", "30 - 34 Years", 10⟩, ⟨"Bedok", "30 - 34 Years", 5⟩,
       ⟨"Bedok", "30 - 34 Years", 2⟩] := by decide
  have hkeys : ((taggedResidentRows dupResidentRows).map
      (fun r => (r.subzone, r.ageBin))).dedup =
      [("Bedok ", "30 - 34 Years"), ("Bedok", "30 - 34 Years")] := by decide
  simp only [aggregate_women_by_age_bin]
  rw [hkeys, htag]
  simp only [List.map_cons, List.map_nil, List.filter_cons, List.filter_nil,
    List.sum_cons, List.sum_nil, Bool.and_eq_true, beq_iff_eq,
    decide_eq_true_eq, String.reduceEq, and_false, false_and, and_true,
    true_and, and_self, if_true, if_false]
  norm_num

/-- C7 (amended): tables are aggregated by the RAW subzone key with no prior
whitespace normalization: the existing-residents aggregation produces one
output row per distinct raw (subzone, age-bin) key — rows with exactly
identical keys are summed into a single entry, never dropped or overwritten
— but keys differing by surrounding whitespace remain distinct entries; the
BTO processor strips subzone whitespace only after its pivot aggregation,
so whitespace variants there surface as duplicate labels instead of one
summed entry. -/
theorem aggregate_women_sums_by_raw_key (rows : List RawResidentRow) :
    (aggregate_women_by_age_bin rows).map (fun r => (r.subzone, r.ageBin)) =
      ((taggedResidentRows rows).map
        (fun r => (r.subzone, r.ageBin))).dedup ∧
    ((aggregate_women_by_age_bin rows).map
      (fun r => (r.subzone, r.ageBin))).Nodup ∧
    ∀ r ∈ aggregate_women_by_age_bin rows,
      r.count = (((taggedResidentRows rows).filter (fun t =>
          t.subzone == r.subzone && t.ageBin == r.ageBin)).map
        (fun t => t.count)).sum := by
  have h1 : (aggregate_women_by_age_bin rows).map
      (fun r => (r.subzone, r.ageBin)) =
      ((taggedResidentRows rows).map
        (fun r => (r.subzone, r.ageBin))).dedup := by
    simp only [aggregate_women_by_age_bin, List.map_map]
    exact (List.map_congr_left (fun key _ => rfl)).trans (List.map_id _)
  refine ⟨h1, ?_, ?_⟩
  · rw [h1]
    exact List.nodup_dedup _
  · intro r hr
    simp only [aggregate_women_by_age_bin, List.mem_map] at hr
    obtain ⟨key, hkey, rfl⟩ := hr
    rfl

theorem aggregate_women_witness :
    (aggregate_women_by_age_bin dupResidentRows).map
        (fun r => (r.subzone, r.ageBin)) =
      ((taggedResidentRows dupResidentRows).map
        (fun r => (r.subzone, r.ageBin))).dedup :=
  (aggregate_women_sums_by_raw_key dupResidentRows).1

end Ecda
